import Mathlib

/-!
Verification of the gh-space-shooter simulation-and-frame-generation core.

The Python sources under `src/gh_space_shooter` are shallowly embedded:
pure per-entity update functions become Lean functions on records, floats
on the quarter-cell lattice become exact rationals, and the Animator's
generator pipeline becomes explicit list-producing functions.  The parts
of the repository that are referenced but not shipped with the sources
(`game_state.py`, the strategies, the renderer) are modelled from the
specification; each such definition carries a doc comment saying so.
-/

namespace Shooter

/- Constants from `constants.py`. -/

def NUM_WEEKS : ℕ := 52

def NUM_DAYS : ℕ := 7

def SHIP_POSITION_Y : ℕ := NUM_DAYS + 3

/-- Cells per frame the ship moves (`SHIP_SPEED = 0.25`), exact as a rational. -/
def SHIP_SPEED : ℚ := 1/4

/-- Cells per frame the bullet moves (`BULLET_SPEED = 0.15`), exact as a rational. -/
def BULLET_SPEED : ℚ := 3/20

def SHIP_SHOOT_COOLDOWN_FRAMES : ℕ := 10

def EXPLOSION_MAX_FRAMES_LARGE : ℕ := 20

def EXPLOSION_MAX_FRAMES_SMALL : ℕ := 6

/- Ship, from `game/drawables/ship.py`.  The float position `x` is embedded
as a rational: all reachable values lie on the quarter-cell lattice, where
binary floating point is exact, so the embedding is faithful. -/

structure Ship where
  x : ℚ
  target_x : ℚ
  shoot_cooldown : ℕ
  deriving DecidableEq, Repr

/-- Ship.__init__: starts at x = 25 with target_x = x and zero cooldown. -/
def Ship.init : Ship := { x := 25, target_x := 25, shoot_cooldown := 0 }

/-- Ship.move_to: sets the (integer) target column. -/
def Ship.move_to (s : Ship) (t : ℤ) : Ship := { s with target_x := (t : ℚ) }

/-- Ship.is_moving: `self.x != self.target_x`. -/
def Ship.is_moving (s : Ship) : Bool := s.x != s.target_x

/-- Ship.can_shoot: `self.shoot_cooldown == 0`. -/
def Ship.can_shoot (s : Ship) : Bool := s.shoot_cooldown == 0

/-- Ship.animate: move toward target_x by SHIP_SPEED, clamped not to
overshoot, then decrement the shoot cooldown if nonzero (ℕ subtraction). -/
def Ship.animate (s : Ship) : Ship :=
  let x2 :=
    if s.x < s.target_x then min (s.x + SHIP_SPEED) s.target_x
    else if s.target_x < s.x then max (s.x - SHIP_SPEED) s.target_x
    else s.x
  { s with x := x2, shoot_cooldown := s.shoot_cooldown - 1 }

/- Animator numeric parameters, from `game/animator.py` `__init__`. -/

/-- Animator frame_duration: `1000 // fps`. -/
def animator_frame_duration (fps : ℕ) : ℕ := 1000 / fps

/-- Animator delta_time: `1.0 / fps`. -/
def animator_delta_time (fps : ℕ) : ℚ := 1 / (fps : ℚ)

/-- Frame duration the CLI hands to `provider.encode` in `_generate_output`:
`1000 // fps`. -/
def cli_encode_duration (fps : ℕ) : ℕ := 1000 / fps

/- Explosion, from `game/drawables/explosion.py`.  The randomized particle
angles, particle count and max radius are draw-only data and are omitted;
the animation state is the frame counter against max_frames. -/

structure ExplosionM where
  x : ℚ
  y : ℚ
  frame : ℕ
  max_frames : ℕ
  deriving DecidableEq, Repr

/-- Explosion.animate: `self.frame += 1` (the removal test is `is_done`). -/
def ExplosionM.animate (e : ExplosionM) : ExplosionM := { e with frame := e.frame + 1 }

/-- Explosion removal condition in Explosion.animate:
`if self.frame >= self.max_frames: self.game_state.explosions.remove(self)`. -/
def ExplosionM.is_done (e : ExplosionM) : Bool := e.max_frames ≤ e.frame

/-- Explosion construction: frame starts at 0; max_frames is 6 for a small
explosion (bullet impact) and 20 for a large one (enemy destroyed). -/
def explosion_small (x y : ℚ) : ExplosionM :=
  { x := x, y := y, frame := 0, max_frames := EXPLOSION_MAX_FRAMES_SMALL }

def explosion_large (x y : ℚ) : ExplosionM :=
  { x := x, y := y, frame := 0, max_frames := EXPLOSION_MAX_FRAMES_LARGE }

/- Enemy and Bullet.  Modelled from the spec (`enemy.py` and `bullet.py` are
not shipped under src/): an Enemy sits at an integer cell with positive
health; a Bullet has a fixed integer column and a continuous row moving
upward (decreasing y) by BULLET_SPEED per tick. -/

structure Enemy where
  x : ℤ
  y : ℤ
  health : ℕ
  deriving DecidableEq, Repr

structure Bullet where
  x : ℤ
  y : ℚ
  deriving DecidableEq, Repr

/-- Modelled from the spec: bullets are removed once off screen; the shipped
test `test_bullet_removed_when_off_screen` documents the bound as y < -10. -/
def BULLET_OFFSCREEN_Y : ℚ := -10

/-- Modelled from the spec: collision scan for a bullet at column bx, row
r.  The first enemy in iteration order sharing the integer column whose row
has been reached-or-passed by the upward bullet (r ≤ enemy.y) wins; on a
hit the enemy loses 1 health and is removed at 0.  Returns the enemy that
was hit (pre-damage) and the updated enemy list. -/
def hit_first (bx : ℤ) (r : ℚ) : List Enemy → Option (Enemy × List Enemy)
  | [] => none
  | e :: rest =>
    if e.x = bx ∧ r ≤ (e.y : ℚ) then
      if e.health ≤ 1 then some (e, rest)
      else some (e, { e with health := e.health - 1 } :: rest)
    else
      match hit_first bx r rest with
      | none => none
      | some p => some (p.1, e :: p.2)

/-- Accumulator for one bullet pass of the tick. -/
structure TickAcc where
  enemies : List Enemy
  bullets : List Bullet
  new_explosions : List ExplosionM
  deriving DecidableEq, Repr

/-- Modelled from the spec: one bullet's step of `GameState.animate` —
move up by BULLET_SPEED, then resolve at most one collision (small
explosion at the impact point; additionally a large explosion at the
enemy's position if it died), else drop the bullet once off screen. -/
def step_bullet (acc : TickAcc) (b : Bullet) : TickAcc :=
  let b2 : Bullet := { b with y := b.y - BULLET_SPEED }
  match hit_first b2.x b2.y acc.enemies with
  | some p =>
    let exs :=
      if p.1.health ≤ 1 then
        [explosion_small (b2.x : ℚ) b2.y, explosion_large (p.1.x : ℚ) (p.1.y : ℚ)]
      else [explosion_small (b2.x : ℚ) b2.y]
    { enemies := p.2, bullets := acc.bullets, new_explosions := acc.new_explosions ++ exs }
  | none =>
    if b2.y < BULLET_OFFSCREEN_Y then acc
    else { acc with bullets := acc.bullets ++ [b2] }

/-- One tick of the explosion set: every explosion advances one frame and
the ones that reached max_frames are removed (Explosion.animate). -/
def step_explosions (es : List ExplosionM) : List ExplosionM :=
  (es.map ExplosionM.animate).filter (fun e => ! e.is_done)

/- Game State.  Modelled from the spec (`game_state.py` is not shipped
under src/): owns the Ship, the Enemy/Bullet/Explosion sets; the starfield
background is draw-only and omitted. -/

structure GameState where
  ship : Ship
  enemies : List Enemy
  bullets : List Bullet
  explosions : List ExplosionM
  deriving DecidableEq, Repr

/-- Modelled from the spec: enemies are derived from the grid at
construction, one per cell with level > 0, at (week, day) with
health = level. -/
def enemies_of_grid (grid : List (List ℕ)) : List Enemy :=
  (grid.enum.map (fun wk =>
    wk.2.enum.filterMap (fun d =>
      if 0 < d.2 then some { x := (wk.1 : ℤ), y := (d.1 : ℤ), health := d.2 } else none))).flatten

/-- Modelled from the spec: GameState construction — Ship at its start
column, enemies from the grid, empty bullet and explosion sets. -/
def GameState.new (grid : List (List ℕ)) : GameState :=
  { ship := Ship.init, enemies := enemies_of_grid grid, bullets := [], explosions := [] }

/-- Modelled from the spec: `canTakeAction()` is true only when the Ship is
not currently moving (x == targetX) and its shoot cooldown is zero. -/
def GameState.can_take_action (g : GameState) : Bool :=
  ! g.ship.is_moving && g.ship.shoot_cooldown == 0

/-- Modelled from the spec: `isComplete()` is true iff no enemies, no
bullets and no explosions remain. -/
def GameState.is_complete (g : GameState) : Bool :=
  g.enemies.isEmpty && g.bullets.isEmpty && g.explosions.isEmpty

/-- Modelled from the spec: `shoot()` requires `ship.canShoot()`; it spawns
a bullet at the ship's current column just above the ship and resets the
cooldown to SHIP_SHOOT_COOLDOWN_FRAMES; otherwise it is a no-op. -/
def GameState.shoot (g : GameState) : GameState :=
  if g.ship.can_shoot then
    { g with
      bullets := g.bullets ++ [{ x := g.ship.x.floor, y := (SHIP_POSITION_Y : ℚ) - 1 }],
      ship := { g.ship with shoot_cooldown := SHIP_SHOOT_COOLDOWN_FRAMES } }
  else g

/-- Modelled from the spec: one simulation tick — the ship moves and its
cooldown decays, each bullet advances and resolves collisions in order,
each explosion (including ones spawned this tick) advances and self-removes
at its bound.  The starfield step is draw-only and omitted. -/
def GameState.animate (g : GameState) : GameState :=
  let acc := g.bullets.foldl step_bullet { enemies := g.enemies, bullets := [], new_explosions := [] }
  { ship := Ship.animate g.ship,
    enemies := acc.enemies,
    bullets := acc.bullets,
    explosions := step_explosions (g.explosions ++ acc.new_explosions) }

/- The Animator pipeline, from `game/animator.py`.  The generator protocol
is embedded as list-producing functions over an abstract interface to the
game state and renderer: `animator.py` only touches the game state through
the operations below, so the pipeline theorems hold for any state type. -/

/-- A strategy action, from the spec and `animator.py`: a target column
`x` and whether to fire (`shoot`). -/
structure Action where
  x : ℤ
  shoot : Bool
  deriving DecidableEq, Repr

/-- The operations `_generate_frames` uses on the game state and renderer:
`ship.move_to`, `animate`, `shoot`, `can_take_action`, `is_complete`, and
`render_frame`. -/
structure GameOps (σ : Type) (φ : Type) where
  move_to : σ → ℤ → σ
  animate : σ → σ
  shoot : σ → σ
  can_take_action : σ → Bool
  is_complete : σ → Bool
  render : σ → φ

/-- The wait loop of `_generate_frames`:
`while game_state.can_take_action() is False: animate; yield frame`.
The source while loop is modelled with an explicit fuel parameter; the
termination theorem for the concrete game state shows the loop ends. -/
def wait_loop {σ φ : Type} (ops : GameOps σ φ) : ℕ → σ → List φ × σ
  | 0, s => ([], s)
  | fuel + 1, s =>
    if ops.can_take_action s then ([], s)
    else
      let s2 := ops.animate s
      let r := wait_loop ops fuel s2
      (ops.render s2 :: r.1, r.2)

/-- One Streaming-phase action of `_generate_frames`: set the ship target,
drain movement/cooldown, then optionally shoot + animate + emit one frame. -/
def process_action {σ φ : Type} (ops : GameOps σ φ) (fuel : ℕ) (s : σ) (a : Action) :
    List φ × σ :=
  let r := wait_loop ops fuel (ops.move_to s a.x)
  if a.shoot then
    let s3 := ops.animate (ops.shoot r.2)
    (r.1 ++ [ops.render s3], s3)
  else r

/-- The Streaming phase: process each strategy action in order. -/
def stream_actions {σ φ : Type} (ops : GameOps σ φ) (fuel : ℕ) :
    List Action → σ → List φ × σ
  | [], s => ([], s)
  | a :: rest, s =>
    let r1 := process_action ops fuel s a
    let r2 := stream_actions ops fuel rest r1.2
    (r1.1 ++ r2.1, r2.2)

/-- The Draining phase of `_generate_frames`: starting from
`force_kill_countdown = c`, loop `while not is_complete(): animate; yield`,
decrementing the countdown after each emission and breaking once it is
spent.  The countdown values 0 and 1 both allow exactly one more emission,
as in the source (`countdown -= 1; if countdown <= 0: break`). -/
def drain_loop {σ φ : Type} (ops : GameOps σ φ) : ℕ → σ → List φ × σ
  | 0, s =>
    if ops.is_complete s then ([], s)
    else ([ops.render (ops.animate s)], ops.animate s)
  | 1, s =>
    if ops.is_complete s then ([], s)
    else ([ops.render (ops.animate s)], ops.animate s)
  | c + 2, s =>
    if ops.is_complete s then ([], s)
    else
      let s2 := ops.animate s
      let r := drain_loop ops (c + 1) s2
      (ops.render s2 :: r.1, r.2)

/-- `Animator._generate_frames`: frame 0 (the just-constructed state),
the Streaming phase, the Draining phase with a countdown of 100, and 5
trailing frames of the final state. -/
def generate_frames_inner {σ φ : Type} (ops : GameOps σ φ) (fuel : ℕ)
    (as : List Action) (s0 : σ) : List φ :=
  let r1 := stream_actions ops fuel as s0
  let r2 := drain_loop ops 100 r1.2
  ops.render s0 :: (r1.1 ++ (r2.1 ++ List.replicate 5 (ops.render r2.2)))

/-- The `max_frames` cap of `Animator.generate_frames`:
`while max_frames > 0: max_frames -= 1; yield next(gen)` over the frames
produced by `_generate_frames`.  The boolean records whether `next(gen)`
was called on an exhausted generator — in the Python source that raises
StopIteration inside a generator, which PEP 479 turns into a RuntimeError
delivered to the consumer. -/
def cap_loop {φ : Type} : ℕ → List φ → List φ × Bool
  | 0, _ => ([], false)
  | _ + 1, [] => ([], true)
  | n + 1, f :: fs =>
    let r := cap_loop n fs
    (f :: r.1, r.2)

/-- The concrete game-state instantiation of the Animator interface.  The
renderer is a pure function of the game state (spec 4.5), so a frame is
modelled as the state snapshot it renders. -/
def gameOps : GameOps GameState GameState where
  move_to g t := { g with ship := g.ship.move_to t }
  animate := GameState.animate
  shoot := GameState.shoot
  can_take_action := GameState.can_take_action
  is_complete := GameState.is_complete
  render := id

/-- Modelled from the spec: the column strategy emits one shooting action
per enemy, targeting that enemy's column, in grid (column-major) order. -/
def column_actions (g : GameState) : List Action :=
  g.enemies.map (fun e => { x := e.x, shoot := true })

/-- A one-week all-zero grid: no enemies. -/
def one_week_empty : List (List ℕ) := [List.replicate 7 0]

/-- The full frame sequence on the empty one-week grid. -/
def empty_run : List GameState :=
  generate_frames_inner gameOps 1000 (column_actions (GameState.new one_week_empty))
    (GameState.new one_week_empty)

/- Strategy resolution, from `cli.py` `_setup_animator`: the three known
selectors map to their strategy classes; anything else raises CLIError and
no Animator is constructed. -/

inductive StrategyKind
  | column
  | row
  | random
  deriving DecidableEq, Repr

/-- The Animator as constructed by `_setup_animator` on success: the chosen
strategy together with the fps and watermark parameters. -/
structure AnimatorConfig where
  strategy : StrategyKind
  fps : ℕ
  watermark : Bool
  deriving DecidableEq, Repr

/-- The CLIError message raised by `_setup_animator` for an unknown
selector. -/
def unknown_strategy_message (name : String) : String :=
  "Unknown strategy " ++ name ++ ". Available: column, row, random"

/-- cli.py `_setup_animator`: dispatch on the selector string, constructing
the Animator only for a recognized strategy and failing otherwise. -/
def setup_animator (name : String) (fps : ℕ) (watermark : Bool) :
    Except String AnimatorConfig :=
  if name = "column" then .ok { strategy := .column, fps := fps, watermark := watermark }
  else if name = "row" then .ok { strategy := .row, fps := fps, watermark := watermark }
  else if name = "random" then .ok { strategy := .random, fps := fps, watermark := watermark }
  else .error (unknown_strategy_message name)

/- Helper lemmas. -/

/-- Unfolding lemma for the position component of Ship.animate. -/
theorem ship_animate_x (s : Ship) :
    (Ship.animate s).x =
      if s.x < s.target_x then min (s.x + SHIP_SPEED) s.target_x
      else if s.target_x < s.x then max (s.x - SHIP_SPEED) s.target_x
      else s.x := rfl

/-- Ship.animate never changes the target column. -/
theorem ship_animate_target (s : Ship) : (Ship.animate s).target_x = s.target_x := rfl

/-- Ship.animate decrements the cooldown (truncated at zero). -/
theorem ship_animate_cooldown (s : Ship) :
    (Ship.animate s).shoot_cooldown = s.shoot_cooldown - 1 := rfl

/-- The frame-list length of the Draining loop is bounded by its countdown. -/
theorem drain_loop_len_le {σ φ : Type} (ops : GameOps σ φ) (c : ℕ) :
    ∀ s : σ, ((drain_loop ops (c + 1) s).1).length ≤ c + 1 := by
  induction c with
  | zero =>
    intro s
    by_cases h : ops.is_complete s = true <;> simp [drain_loop, h]
  | succ n ih =>
    intro s
    by_cases h : ops.is_complete s = true
    · simp [drain_loop, h]
    · have hb := ih (ops.animate s)
      simp [drain_loop, h]
      omega

/- Claim theorems. -/

/-- C2: the Draining phase of `Animator._generate_frames` — the loop
`while not is_complete(): animate(); yield frame` guarded by
`force_kill_countdown = 100` — emits at most 100 frames, for every game
state and every state dynamics, so the post-stream part of the sequence
never loops forever even if residual entities never resolve. -/
theorem draining_emits_at_most_100 {σ φ : Type} (ops : GameOps σ φ) (s : σ) :
    ((drain_loop ops 100 s).1).length ≤ 100 :=
  drain_loop_len_le ops 99 s

/-- C3: for every grid and strategy, the first frame yielded by
`Animator._generate_frames` is the render of the just-constructed game
state: it precedes the whole Streaming phase, so it is emitted before any
action is applied and before any animate or shoot call. -/
theorem first_frame_is_initial_render {σ φ : Type} (ops : GameOps σ φ) (fuel : ℕ)
    (as : List Action) (s0 : σ) :
    (generate_frames_inner ops fuel as s0).head? = some (ops.render s0) := rfl

/-- C7: after the Draining phase ends, `_generate_frames` emits exactly 5
trailing frames (`for _ in range(5): yield renderer.render_frame()`), with
no animate or shoot call in between: the whole sequence ends with
`List.replicate 5` of the render of the single post-draining state, so all
five trailing frames render the same final state. -/
theorem trailing_frames_five_identical {σ φ : Type} (ops : GameOps σ φ) (fuel : ℕ)
    (as : List Action) (s0 : σ) :
    ∃ pre sEnd, generate_frames_inner ops fuel as s0 =
      pre ++ List.replicate 5 (ops.render sEnd) := by
  refine ⟨ops.render s0 :: ((stream_actions ops fuel as s0).1 ++
      (drain_loop ops 100 (stream_actions ops fuel as s0).2).1),
    (drain_loop ops 100 (stream_actions ops fuel as s0).2).2, ?_⟩
  simp [generate_frames_inner]

/-- C1 (failing input): on the all-zero one-week grid the uncapped sequence
has exactly 6 frames, and `generate_frames(max_frames = 10)` yields those 6
frames and then calls `next` on the exhausted generator — the error flag of
the cap loop is set, modelling the StopIteration that PEP 479 converts into
a RuntimeError, instead of the claimed normal termination. -/
theorem cap_overrun_raises_on_empty_grid :
    empty_run.length = 6 ∧ (cap_loop 10 empty_run).1.length = 6 ∧
      (cap_loop 10 empty_run).2 = true := by decide

/-- C5: `canTakeAction()` is false exactly when the ship is still moving
(`x != target_x`) or its shoot cooldown is positive, and true otherwise. -/
theorem can_take_action_false_iff (g : GameState) :
    GameState.can_take_action g = false ↔
      g.ship.x ≠ g.ship.target_x ∨ 0 < g.ship.shoot_cooldown := by
  rcases eq_or_ne g.ship.x g.ship.target_x with h | h <;>
    rcases Nat.eq_zero_or_pos g.ship.shoot_cooldown with h2 | h2 <;>
      simp [GameState.can_take_action, Ship.is_moving, h, h2, Nat.pos_iff_ne_zero] <;>
        omega

/-- C8: for every positive fps, the frame duration computed by
`Animator.__init__` is exactly `1000 // fps` milliseconds, and the duration
the CLI hands to `provider.encode` agrees with it for every frame of the
sequence (a single duration is declared for all frames). -/
theorem frame_duration_exact (fps : ℕ) (h : 0 < fps) :
    animator_frame_duration fps = 1000 / fps ∧
      cli_encode_duration fps = animator_frame_duration fps :=
  ⟨rfl, rfl⟩

theorem frame_duration_exact_wit :
    0 < 30 ∧ (animator_frame_duration 30 = 1000 / 30 ∧
      cli_encode_duration 30 = animator_frame_duration 30) :=
  ⟨by decide, frame_duration_exact 30 (by decide)⟩

/-- C9: strategy resolution fails with an error for every selector outside
the three known names — no Animator is constructed and no default is
silently substituted — while each known selector yields the Animator with
the corresponding strategy variant. -/
theorem strategy_resolution_rejects_unknown (name : String) (fps : ℕ) (wm : Bool)
    (h : name ≠ "column" ∧ name ≠ "row" ∧ name ≠ "random") :
    setup_animator name fps wm = .error (unknown_strategy_message name) ∧
      setup_animator "column" fps wm =
        .ok { strategy := .column, fps := fps, watermark := wm } ∧
      setup_animator "row" fps wm =
        .ok { strategy := .row, fps := fps, watermark := wm } ∧
      setup_animator "random" fps wm =
        .ok { strategy := .random, fps := fps, watermark := wm } := by
  obtain ⟨h1, h2, h3⟩ := h
  refine ⟨?_, by simp [setup_animator], by simp [setup_animator], by simp [setup_animator]⟩
  simp [setup_animator, h1, h2, h3]

/-- C6: while an explosion is live its frame counter is strictly below its
bound (0 ≤ frame is a type invariant); one Explosion.animate call increments
frame by exactly 1, keeps it at most max_frames, and the explosion leaves
the game state's explosion set exactly in the tick its counter first
reaches max_frames — never earlier and never later. -/
theorem explosion_animate_removal_exact (e : ExplosionM) (es : List ExplosionM)
    (hmem : e ∈ es) (h : e.frame < e.max_frames) :
    (ExplosionM.animate e).frame = e.frame + 1 ∧
      (ExplosionM.animate e).frame ≤ e.max_frames ∧
      ((ExplosionM.animate e).is_done = true ↔
        (ExplosionM.animate e).frame = e.max_frames) ∧
      (ExplosionM.animate e ∈ step_explosions es ↔
        (ExplosionM.animate e).frame < e.max_frames) := by
  refine ⟨rfl, by simp [ExplosionM.animate]; omega, ?_, ?_⟩
  · simp [ExplosionM.is_done, ExplosionM.animate]
    omega
  · constructor
    · intro hin
      have := (List.mem_filter.mp hin).2
      simp [ExplosionM.is_done, ExplosionM.animate] at this ⊢
      omega
    · intro hlt
      refine List.mem_filter.mpr ⟨List.mem_map_of_mem _ hmem, ?_⟩
      simp [ExplosionM.is_done, ExplosionM.animate] at hlt ⊢
      omega

theorem explosion_animate_removal_exact_wit :
    ((explosion_small 0 0) ∈ [explosion_small 0 0] ∧
      (explosion_small 0 0).frame < (explosion_small 0 0).max_frames) ∧
    ((ExplosionM.animate (explosion_small 0 0)).frame = (explosion_small 0 0).frame + 1 ∧
      (ExplosionM.animate (explosion_small 0 0)).frame ≤ (explosion_small 0 0).max_frames ∧
      ((ExplosionM.animate (explosion_small 0 0)).is_done = true ↔
        (ExplosionM.animate (explosion_small 0 0)).frame = (explosion_small 0 0).max_frames) ∧
      (ExplosionM.animate (explosion_small 0 0) ∈ step_explosions [explosion_small 0 0] ↔
        (ExplosionM.animate (explosion_small 0 0)).frame < (explosion_small 0 0).max_frames)) :=
  ⟨⟨by decide, by decide⟩,
    explosion_animate_removal_exact (explosion_small 0 0) [explosion_small 0 0]
      (by decide) (by decide)⟩

/-- C4 (counterexample): at fps = 30, a ship one cell left of its target
moves a full SHIP_SPEED = 0.25 cells in one Ship.animate call, not the
SHIP_SPEED * (1/fps) cells the claim prescribes: Ship.animate takes no
delta-time argument, while the Animator's delta_time is 1/fps. -/
theorem ship_step_not_scaled_by_fps :
    (Ship.animate { x := 25, target_x := 26, shoot_cooldown := 0 }).x - 25 ≠
      SHIP_SPEED * animator_delta_time 30 := by
  norm_num [Ship.animate, SHIP_SPEED, animator_delta_time, min_def, max_def]

/-- C4 (amended): movement constants are per-frame, not per-second: a
single Ship.animate call displaces the ship by exactly
min(SHIP_SPEED, |target_x - x|) cells toward its target, with no dependence
on fps, even though Animator.__init__ computes delta_time = 1/fps. -/
theorem ship_step_is_per_frame (s : Ship) :
    |(Ship.animate s).x - s.x| = min SHIP_SPEED |s.target_x - s.x| := by
  have hsp : (0:ℚ) ≤ SHIP_SPEED := by norm_num [SHIP_SPEED]
  rcases lt_trichotomy s.x s.target_x with h | h | h
  · rw [ship_animate_x, if_pos h, abs_of_nonneg (by linarith : (0:ℚ) ≤ s.target_x - s.x)]
    rcases le_total (s.x + SHIP_SPEED) s.target_x with h2 | h2
    · rw [min_eq_left h2, min_eq_left (by linarith), abs_of_nonneg (by linarith)]
      ring
    · rw [min_eq_right h2, min_eq_right (by linarith), abs_of_nonneg (by linarith)]
  · rw [ship_animate_x, if_neg (by rw [h]; exact lt_irrefl _),
      if_neg (by rw [h]; exact lt_irrefl _), h]
    simp [min_eq_right hsp]
  · rw [ship_animate_x, if_neg (not_lt.mpr (le_of_lt h)), if_pos h,
      abs_of_nonpos (by linarith : s.target_x - s.x ≤ 0)]
    rcases le_total (s.x - SHIP_SPEED) s.target_x with h2 | h2
    · rw [max_eq_right h2, min_eq_right (by linarith), abs_of_nonpos (by linarith)]
    · rw [max_eq_left h2, min_eq_left (by linarith), abs_of_nonpos (by linarith)]
      ring

theorem strategy_resolution_rejects_unknown_wit :
    ("diagonal" ≠ "column" ∧ "diagonal" ≠ "row" ∧ "diagonal" ≠ "random") ∧
    (setup_animator "diagonal" 30 false =
        .error (unknown_strategy_message "diagonal") ∧
      setup_animator "column" 30 false =
        .ok { strategy := .column, fps := 30, watermark := false } ∧
      setup_animator "row" 30 false =
        .ok { strategy := .row, fps := 30, watermark := false } ∧
      setup_animator "random" 30 false =
        .ok { strategy := .random, fps := 30, watermark := false }) :=
  ⟨by decide, strategy_resolution_rejects_unknown "diagonal" 30 false (by decide)⟩

/- Quarter-cell lattice lemmas for the ship's motion (claim C10). -/

/-- One Ship.animate step from x = k/4 toward a strictly larger target m/4
lands exactly on (k+1)/4: the quarter-cell step never overshoots. -/
theorem ship_step_up (k m : ℤ) (s : Ship) (hx : s.x = (k:ℚ)/4)
    (ht : s.target_x = (m:ℚ)/4) (h : k < m) :
    (Ship.animate s).x = ((k + 1 : ℤ) : ℚ)/4 := by
  have hk : (k:ℚ) < (m:ℚ) := by exact_mod_cast h
  have hk1 : ((k:ℚ) + 1) ≤ (m:ℚ) := by exact_mod_cast (by omega : k + 1 ≤ m)
  have hlt : s.x < s.target_x := by rw [hx, ht]; linarith
  rw [ship_animate_x, if_pos hlt, hx, ht, show SHIP_SPEED = (1:ℚ)/4 from rfl,
    min_eq_left (by linarith)]
  push_cast
  ring

/-- One Ship.animate step from x = k/4 toward a strictly smaller target m/4
lands exactly on (k-1)/4. -/
theorem ship_step_down (k m : ℤ) (s : Ship) (hx : s.x = (k:ℚ)/4)
    (ht : s.target_x = (m:ℚ)/4) (h : m < k) :
    (Ship.animate s).x = ((k - 1 : ℤ) : ℚ)/4 := by
  have hk : (m:ℚ) < (k:ℚ) := by exact_mod_cast h
  have hk1 : (m:ℚ) ≤ ((k:ℚ) - 1) := by exact_mod_cast (by omega : m ≤ k - 1)
  have hlt : s.target_x < s.x := by rw [hx, ht]; linarith
  rw [ship_animate_x, if_neg (not_lt.mpr (le_of_lt hlt)), if_pos hlt, hx, ht,
    show SHIP_SPEED = (1:ℚ)/4 from rfl, max_eq_left (by linarith)]
  push_cast
  ring

/-- Ship.animate does not move a ship that is at its target. -/
theorem ship_step_eq (s : Ship) (h : s.x = s.target_x) : (Ship.animate s).x = s.x := by
  rw [ship_animate_x, if_neg (by rw [h]; exact lt_irrefl _),
    if_neg (by rw [h]; exact lt_irrefl _)]

/-- Iterated Ship.animate keeps the target column. -/
theorem ship_iterate_target (n : ℕ) : ∀ s : Ship,
    (Ship.animate^[n] s).target_x = s.target_x := by
  induction n with
  | zero => intro s; rfl
  | succ n ih =>
    intro s
    rw [Function.iterate_succ_apply, ih (Ship.animate s), ship_animate_target]

/-- Iterated Ship.animate drains the cooldown by one per tick (ℕ sub). -/
theorem ship_iterate_cooldown (n : ℕ) : ∀ s : Ship,
    (Ship.animate^[n] s).shoot_cooldown = s.shoot_cooldown - n := by
  induction n with
  | zero => intro s; rfl
  | succ n ih =>
    intro s
    rw [Function.iterate_succ_apply, ih (Ship.animate s), ship_animate_cooldown]
    omega

/-- From x = k/4 with target m/4, exactly (k - m).natAbs steps reach the
target. -/
theorem ship_reach (n : ℕ) : ∀ (k m : ℤ) (s : Ship), s.x = (k:ℚ)/4 →
    s.target_x = (m:ℚ)/4 → (k - m).natAbs = n → (Ship.animate^[n] s).x = (m:ℚ)/4 := by
  induction n with
  | zero =>
    intro k m s hx ht hn
    have hkm : k = m := by omega
    rw [show Ship.animate^[0] s = s from rfl, hx, hkm]
  | succ n ih =>
    intro k m s hx ht hn
    rw [Function.iterate_succ_apply]
    rcases lt_trichotomy k m with h | h | h
    · exact ih (k + 1) m (Ship.animate s) (ship_step_up k m s hx ht h)
        (by rw [ship_animate_target, ht]) (by omega)
    · exfalso; omega
    · exact ih (k - 1) m (Ship.animate s) (ship_step_down k m s hx ht h)
        (by rw [ship_animate_target, ht]) (by omega)

/-- Strictly before (k - m).natAbs steps the ship has not yet reached the
target: the arrival tick is exact. -/
theorem ship_not_reach (j : ℕ) : ∀ (k m : ℤ) (s : Ship), s.x = (k:ℚ)/4 →
    s.target_x = (m:ℚ)/4 → j < (k - m).natAbs → (Ship.animate^[j] s).x ≠ (m:ℚ)/4 := by
  induction j with
  | zero =>
    intro k m s hx ht hj
    have hkm : k ≠ m := by omega
    rw [show Ship.animate^[0] s = s from rfl, hx]
    intro heq
    have hq : (k:ℚ) = (m:ℚ) := by linarith
    exact hkm (by exact_mod_cast hq)
  | succ j ih =>
    intro k m s hx ht hj
    rw [Function.iterate_succ_apply]
    rcases lt_trichotomy k m with h | h | h
    · exact ih (k + 1) m (Ship.animate s) (ship_step_up k m s hx ht h)
        (by rw [ship_animate_target, ht]) (by omega)
    · exfalso; omega
    · exact ih (k - 1) m (Ship.animate s) (ship_step_down k m s hx ht h)
        (by rw [ship_animate_target, ht]) (by omega)

/-- The ship position stays on the quarter-cell lattice at every tick. -/
theorem ship_lattice (j : ℕ) : ∀ (k m : ℤ) (s : Ship), s.x = (k:ℚ)/4 →
    s.target_x = (m:ℚ)/4 → ∃ k2 : ℤ, (Ship.animate^[j] s).x = (k2:ℚ)/4 := by
  induction j with
  | zero => intro k m s hx ht; exact ⟨k, hx⟩
  | succ j ih =>
    intro k m s hx ht
    rw [Function.iterate_succ_apply]
    rcases lt_trichotomy k m with h | h | h
    · exact ih (k + 1) m (Ship.animate s) (ship_step_up k m s hx ht h)
        (by rw [ship_animate_target, ht])
    · refine ih k m (Ship.animate s) ?_ (by rw [ship_animate_target, ht])
      rw [ship_step_eq s (by rw [hx, ht, h]), hx]
    · exact ih (k - 1) m (Ship.animate s) (ship_step_down k m s hx ht h)
        (by rw [ship_animate_target, ht])

/-- A ship at its target stays there under iteration. -/
theorem ship_stay (n : ℕ) : ∀ s : Ship, s.x = s.target_x →
    (Ship.animate^[n] s).x = s.target_x := by
  induction n with
  | zero => intro s h; exact h
  | succ n ih =>
    intro s h
    have h2 : (Ship.animate s).x = (Ship.animate s).target_x := by
      rw [ship_step_eq s h, ship_animate_target]; exact h
    rw [Function.iterate_succ_apply, ih (Ship.animate s) h2, ship_animate_target]

/-- GameState.animate updates the ship by Ship.animate: no other tick phase
touches the ship. -/
theorem gs_animate_ship (g : GameState) :
    (GameState.animate g).ship = Ship.animate g.ship := rfl

/-- The ship component of the iterated game-state tick is the iterated ship
tick. -/
theorem gs_iterate_ship (n : ℕ) : ∀ g : GameState,
    (GameState.animate^[n] g).ship = Ship.animate^[n] g.ship := by
  induction n with
  | zero => intro g; rfl
  | succ n ih =>
    intro g
    rw [Function.iterate_succ_apply, Function.iterate_succ_apply,
      ih (GameState.animate g), gs_animate_ship]

/-- C10: starting from any game state whose ship position lies on the
quarter-cell lattice (x = k/4; the ship starts at 25 and every step is a
quarter cell or a clamp to an integer target, so all reachable states
qualify), after `ship.move_to(t)` for an integer target t: the position
stays on the lattice forever, the ship reaches t after exactly
(k - 4t).natAbs = 4*|x0 - t| game ticks and not before, and the Animator's
wait loop `while not can_take_action(): animate()` halts, since after
max(4*|x0 - t|, cooldown) ticks `can_take_action` is true. -/
theorem ship_lattice_wait_terminates (g : GameState) (k t : ℤ)
    (hx : g.ship.x = (k:ℚ)/4) :
    (∀ j : ℕ, ∃ k2 : ℤ,
      ((GameState.animate)^[j] (gameOps.move_to g t)).ship.x = (k2:ℚ)/4) ∧
    ((GameState.animate)^[(k - 4*t).natAbs] (gameOps.move_to g t)).ship.x = (t:ℚ) ∧
    (∀ j : ℕ, j < (k - 4*t).natAbs →
      ((GameState.animate)^[j] (gameOps.move_to g t)).ship.x ≠ (t:ℚ)) ∧
    GameState.can_take_action
      ((GameState.animate)^[max (k - 4*t).natAbs g.ship.shoot_cooldown]
        (gameOps.move_to g t)) = true := by
  have hsx : (gameOps.move_to g t).ship.x = (k:ℚ)/4 := hx
  have hst : (gameOps.move_to g t).ship.target_x = ((4*t : ℤ):ℚ)/4 := by
    show (t:ℚ) = ((4*t : ℤ):ℚ)/4
    push_cast
    ring
  have hcast : ((4*t : ℤ):ℚ)/4 = (t:ℚ) := by push_cast; ring
  refine ⟨?_, ?_, ?_, ?_⟩
  · intro j
    rw [gs_iterate_ship]
    exact ship_lattice j k (4*t) (gameOps.move_to g t).ship hsx hst
  · rw [gs_iterate_ship,
      ship_reach ((k - 4*t).natAbs) k (4*t) (gameOps.move_to g t).ship hsx hst rfl]
    exact hcast
  · intro j hj
    rw [gs_iterate_ship]
    have hne := ship_not_reach j k (4*t) (gameOps.move_to g t).ship hsx hst hj
    rw [hcast] at hne
    exact hne
  · have hxN : (Ship.animate^[max (k - 4*t).natAbs g.ship.shoot_cooldown]
        (gameOps.move_to g t).ship).x =
        (Ship.animate^[max (k - 4*t).natAbs g.ship.shoot_cooldown]
          (gameOps.move_to g t).ship).target_x := by
      have hreach : (Ship.animate^[(k - 4*t).natAbs] (gameOps.move_to g t).ship).x =
          (Ship.animate^[(k - 4*t).natAbs] (gameOps.move_to g t).ship).target_x := by
        rw [ship_reach ((k - 4*t).natAbs) k (4*t) (gameOps.move_to g t).ship hsx hst rfl,
          ship_iterate_target, hst]
      have hsplit : max (k - 4*t).natAbs g.ship.shoot_cooldown =
          (max (k - 4*t).natAbs g.ship.shoot_cooldown - (k - 4*t).natAbs) +
            (k - 4*t).natAbs := by omega
      rw [hsplit, Function.iterate_add_apply,
        ship_stay _ (Ship.animate^[(k - 4*t).natAbs] (gameOps.move_to g t).ship) hreach,
        ship_iterate_target, ship_iterate_target, ship_iterate_target]
    have hcdN : (Ship.animate^[max (k - 4*t).natAbs g.ship.shoot_cooldown]
        (gameOps.move_to g t).ship).shoot_cooldown = 0 := by
      rw [ship_iterate_cooldown]
      show g.ship.shoot_cooldown - max (k - 4*t).natAbs g.ship.shoot_cooldown = 0
      omega
    simp only [GameState.can_take_action, Ship.is_moving, gs_iterate_ship]
    rw [hxN, hcdN]
    simp

theorem ship_lattice_wait_terminates_wit :
    (GameState.new one_week_empty).ship.x = ((100:ℤ):ℚ)/4 ∧
    ((∀ j : ℕ, ∃ k2 : ℤ,
        ((GameState.animate)^[j]
          (gameOps.move_to (GameState.new one_week_empty) 26)).ship.x = (k2:ℚ)/4) ∧
      ((GameState.animate)^[((100:ℤ) - 4*26).natAbs]
        (gameOps.move_to (GameState.new one_week_empty) 26)).ship.x = ((26:ℤ):ℚ) ∧
      (∀ j : ℕ, j < ((100:ℤ) - 4*26).natAbs →
        ((GameState.animate)^[j]
          (gameOps.move_to (GameState.new one_week_empty) 26)).ship.x ≠ ((26:ℤ):ℚ)) ∧
      GameState.can_take_action
        ((GameState.animate)^[max ((100:ℤ) - 4*26).natAbs
            (GameState.new one_week_empty).ship.shoot_cooldown]
          (gameOps.move_to (GameState.new one_week_empty) 26)) = true) :=
  ⟨by norm_num [GameState.new, Ship.init],
    ship_lattice_wait_terminates (GameState.new one_week_empty) 100 26
      (by norm_num [GameState.new, Ship.init])⟩

end Shooter
